import Mathlib

/-!
Verification of the fujinet-nio-lib protocol engine.

The development shallowly embeds the C sources in Lean:
byte buffers become lists of natural numbers, with every load from a
uint8_t array taken modulo 256; unsigned C arithmetic is translated with
explicit division and remainder (`x & 0xFF` is `x % 256`, `x >> 8` is
`x / 256`, a uint16 wrap is `% 65536`); fallible functions return
`Option` or `Except`.  Out-parameters that the C code may leave
unassigned become `Option` fields.  Pointer validity is out of scope:
the models assume caller-supplied out-parameters are present.
-/

deriving instance DecidableEq for Except

namespace FujiNet

/-! ## Protocol constants (fn_protocol.h, fujinet-nio.h) -/

def SLIP_END : Nat := 0xC0

def SLIP_ESCAPE : Nat := 0xDB

def SLIP_ESC_END : Nat := 0xDC

def SLIP_ESC_ESC : Nat := 0xDD

def FN_OK : Nat := 0x00

def FN_ERR_NOT_FOUND : Nat := 0x01

def FN_ERR_INVALID : Nat := 0x02

/-- FN_ERR_IO in the source (renamed here for lexical reasons only). -/
def FN_ERR_IOERR : Nat := 0x05

def FN_ERR_TIMEOUT : Nat := 0x06

def FN_ERR_INTERNAL : Nat := 0x07

def FN_ERR_UNSUPPORTED : Nat := 0x08

def FN_ERR_URL_TOO_LONG : Nat := 0x11

def FN_ERR_NO_HANDLES : Nat := 0x12

def FN_MAX_URL_LEN : Nat := 256

def FN_MAX_SESSIONS : Nat := 4

def FN_MAX_PACKET_SIZE : Nat := 1024

def FN_DEVICE_NETWORK : Nat := 0xFD

def FN_CMD_OPEN : Nat := 0x01

def FN_CMD_READ : Nat := 0x02

def FN_CMD_WRITE : Nat := 0x03

def FN_CMD_CLOSE : Nat := 0x04

def FN_CMD_INFO : Nat := 0x05

def FN_PROTOCOL_VERSION : Nat := 0x01

def FN_INVALID_HANDLE : Nat := 0x0000

/-- Modelled from the spec: FN_HEADER_SIZE is used throughout the sources but
defined outside src/.  The spec (section 6) and the builder comments fix the
header at device(1) + command(1) + length(2) + checksum(1) + descriptor(1)
= 6 bytes. -/
def FN_HEADER_SIZE : Nat := 6

/-- Modelled from the spec: the clock device identifier is defined outside
src/.  The spec only requires it to be distinct from the network device;
its concrete value does not affect any claim. -/
def FN_DEVICE_CLOCK : Nat := 0x45

/-- Modelled from the spec: the clock GetTime command code is defined outside
src/; its concrete value does not affect any claim. -/
def FN_CMD_CLOCK_GET : Nat := 0x01

/-- Modelled from the spec: the clock GetFormat command code is defined
outside src/; its concrete value does not affect any claim.  fn_clock.c
uses this same code for fn_clock_get_tz. -/
def FN_CMD_CLOCK_GET_FORMAT : Nat := 0x02

/-- Modelled from the spec: the clock GetTimezone command code is defined
outside src/; its concrete value does not affect any claim. -/
def FN_CMD_CLOCK_GET_TZ : Nat := 0x03

/-- Modelled from the spec: the clock SyncNetworkTime command code is
defined outside src/; its concrete value does not affect any claim. -/
def FN_CMD_CLOCK_SYNC_NETWORK_TIME : Nat := 0x06

def FN_MAX_TIMEZONE_LEN : Nat := 64

/-- Modelled from the spec: the clock payload version is defined outside
src/.  The fn_clock.c comments document the payload as format v1, matching
the protocol version byte of 1. -/
def FN_CLOCK_VERSION : Nat := 0x01

/-! ## Byte-buffer helpers -/

/-- A load from a uint8_t array: entry `i`, reduced to a byte. -/
def byteAt (l : List Nat) (i : Nat) : Nat := l.getD i 0 % 256

/-- Little-endian 16-bit read `l[i] | (l[i+1] << 8)`.  On bytes the bitwise
or of the low byte with the shifted high byte is addition, the operands
having disjoint bits. -/
def le16 (l : List Nat) (i : Nat) : Nat := byteAt l i + 256 * byteAt l (i + 1)

/-- Little-endian 32-bit read, as in the C `|` and `<<` chain on bytes. -/
def le32 (l : List Nat) (i : Nat) : Nat :=
  byteAt l i + 256 * byteAt l (i + 1) + 65536 * byteAt l (i + 2) +
    16777216 * byteAt l (i + 3)

/-- uint16 subtraction `a - b` with wraparound, valid when b is at most
a + 65536. -/
def sub16 (a b : Nat) : Nat := (a + 65536 - b) % 65536

/-! ## SLIP framing (fn_slip.c) -/

/-- One step of the encode loop body: escape END and ESCAPE bytes. -/
def slipEscByte (b : Nat) : List Nat :=
  if b = SLIP_END then [SLIP_ESCAPE, SLIP_ESC_END]
  else if b = SLIP_ESCAPE then [SLIP_ESCAPE, SLIP_ESC_ESC]
  else [b]

/-- The encode loop over the input bytes. -/
def slipEncodeBody : List Nat → List Nat
  | [] => []
  | b :: rest => slipEscByte b ++ slipEncodeBody rest

/-- The sequence of bytes fn_slip_encode writes, in write order: END
marker, escaped body, END marker. -/
def slipEncodeStream (input : List Nat) : List Nat :=
  SLIP_END :: (slipEncodeBody input ++ [SLIP_END])

/-- fn_slip_encode.  The write counter out_len is a uint16: the k-th write
lands at buffer index k % 65536 and the returned length is the final
counter value modulo 65536.  The result is the encoded data as the caller
sees it: the first out_len buffer cells, each holding the LAST write to
that index (index j is last written by stream position
j + 65536 * ((stream_length - 1 - j) / 65536)); when the counter wraps,
later writes have overwritten earlier cells and data is lost. -/
def fn_slip_encode (input : List Nat) : List Nat :=
  let stream := slipEncodeStream input
  (List.range (stream.length % 65536)).map
    (fun j => stream.getD (j + 65536 * ((stream.length - 1 - j) / 65536)) 0)

/-- The decode loop: copy until an END byte or end of data, un-escaping
two-byte sequences; `none` models the error return (length 0) on a
dangling escape or an invalid escape target. -/
def slipDecodeLoop : List Nat → Option (List Nat)
  | [] => some []
  | b :: rest =>
    if b = SLIP_END then some []
    else if b = SLIP_ESCAPE then
      match rest with
      | [] => none
      | c :: rest2 =>
        if c = SLIP_ESC_END then (slipDecodeLoop rest2).map (fun l => SLIP_END :: l)
        else if c = SLIP_ESC_ESC then (slipDecodeLoop rest2).map (fun l => SLIP_ESCAPE :: l)
        else none
    else (slipDecodeLoop rest).map (fun l => b :: l)

/-- fn_slip_decode: skip one leading END marker if present, then run the
decode loop.  The decode write counter is also a uint16, but it never
wraps: the output is never longer than the input and in_len itself is a
uint16, so the unbounded model is exact here. -/
def fn_slip_decode (input : List Nat) : Option (List Nat) :=
  match input with
  | [] => slipDecodeLoop []
  | b :: rest => if b = SLIP_END then slipDecodeLoop rest else slipDecodeLoop (b :: rest)

/-- fn_slip_max_encoded_size, truncated to the uint16 return type. -/
def fn_slip_max_encoded_size (in_len : Nat) : Nat := (in_len * 2 + 2) % 65536

/-! ## Checksum (fn_packet.c) -/

/-- One iteration of the checksum loop: add the next byte into the uint16
accumulator, then fold the carry byte back in. -/
def chkStep (chk b : Nat) : Nat :=
  let c := (chk + b % 256) % 65536
  (c / 256 + c % 256) % 65536

/-- fn_calc_checksum: carry-folding additive sum, truncated to a byte. -/
def fn_calc_checksum (data : List Nat) : Nat :=
  (data.foldl chkStep 0) % 256

/-- The in-place checksum patch every builder performs: compute the checksum
over the buffer (whose checksum slot holds the 0 placeholder) and store it
at offset 4. -/
def setChecksum (buf : List Nat) : List Nat :=
  buf.set 4 (fn_calc_checksum buf)

/-! ## Packet builders (fn_packet.c) -/

/-- fn_build_header: device, command, total length little-endian, checksum
placeholder, descriptor 0. -/
def fn_build_header (device_id command total_len : Nat) : List Nat :=
  [device_id % 256, command % 256, total_len % 256, total_len / 256 % 256, 0, 0]

/-- fn_build_open_packet.  The url is the byte string before the NUL
terminator; the scan rejects a url longer than FN_MAX_URL_LEN with the
0-length error return, modelled as `none`. -/
def fn_build_open_packet (method flags : Nat) (url : List Nat) : Option (List Nat) :=
  if FN_MAX_URL_LEN < url.length then none
  else
    let url_len := url.length
    let payload_len := 1 + 1 + 1 + 2 + url_len + 2 + 4 + 2
    let total_len := FN_HEADER_SIZE + payload_len
    some (setChecksum
      (fn_build_header FN_DEVICE_NETWORK FN_CMD_OPEN total_len ++
        [FN_PROTOCOL_VERSION, method % 256, flags % 256,
         url_len % 256, url_len / 256 % 256] ++
        url ++ [0, 0] ++ [0, 0, 0, 0] ++ [0, 0]))

/-- fn_build_read_packet. -/
def fn_build_read_packet (handle offset_val max_bytes : Nat) : List Nat :=
  setChecksum
    (fn_build_header FN_DEVICE_NETWORK FN_CMD_READ (FN_HEADER_SIZE + 9) ++
      [FN_PROTOCOL_VERSION, handle % 256, handle / 256 % 256,
       offset_val % 256, offset_val / 256 % 256,
       offset_val / 65536 % 256, offset_val / 16777216 % 256,
       max_bytes % 256, max_bytes / 256 % 256])

/-- fn_build_write_packet.  data_len is the length of the data list; the
uint16 payload and total length wrap modulo 65536 as in the source. -/
def fn_build_write_packet (handle offset_val : Nat) (data : List Nat) : List Nat :=
  let data_len := data.length
  let payload_len := (1 + 2 + 4 + 2 + data_len) % 65536
  let total_len := (FN_HEADER_SIZE + payload_len) % 65536
  setChecksum
    (fn_build_header FN_DEVICE_NETWORK FN_CMD_WRITE total_len ++
      [FN_PROTOCOL_VERSION, handle % 256, handle / 256 % 256,
       offset_val % 256, offset_val / 256 % 256,
       offset_val / 65536 % 256, offset_val / 16777216 % 256,
       data_len % 256, data_len / 256 % 256] ++ data)

/-- fn_build_close_packet. -/
def fn_build_close_packet (handle : Nat) : List Nat :=
  setChecksum
    (fn_build_header FN_DEVICE_NETWORK FN_CMD_CLOSE (FN_HEADER_SIZE + 3) ++
      [FN_PROTOCOL_VERSION, handle % 256, handle / 256 % 256])

/-- fn_build_info_packet. -/
def fn_build_info_packet (handle : Nat) : List Nat :=
  setChecksum
    (fn_build_header FN_DEVICE_NETWORK FN_CMD_INFO (FN_HEADER_SIZE + 3) ++
      [FN_PROTOCOL_VERSION, handle % 256, handle / 256 % 256])

/-! ## Response parsing (fn_packet.c) -/

/-- Result of fn_parse_response_header: operation status, payload offset and
payload length, as written through the three out-parameters. -/
structure ParsedHeader where
  status : Nat
  data_offset : Nat
  data_len : Nat
deriving DecidableEq, Repr

/-- The field width selected by the low three descriptor bits. -/
def fieldSizeTable : List Nat := [0, 1, 1, 1, 1, 2, 2, 4]

/-- The field count selected by the low three descriptor bits. -/
def fieldCountTable : List Nat := [0, 1, 2, 3, 4, 1, 2, 1]

/-- The continuation-bit loop of fn_parse_response_header: while the
descriptor byte has bit 0x80 set (on a byte, the test 128 <= descr) read
the next byte as the descriptor; `none` models the FN_ERR_INVALID return
when the buffer is exhausted.  The loop advances offset on every step and
stops at resp_len, so a fuel of resp_len + 1 (passed at the call site)
always outlasts it; the fuel-exhausted branch is unreachable. -/
def descrSkip (response : List Nat) (resp_len : Nat) :
    Nat → Nat → Nat → Option (Nat × Nat)
  | 0, _, _ => none
  | fuel + 1, descr, offset =>
    if 128 ≤ descr then
      if resp_len ≤ offset then none
      else descrSkip response resp_len fuel (byteAt response offset) (offset + 1)
    else some (descr, offset)

/-- The status-extraction loop: `status |= response[offset+i] << (8*i)`,
where the target is a uint8, so every or-assignment truncates modulo 256. -/
def statusAccum (response : List Nat) (offset fsize : Nat) : Nat :=
  (List.range fsize).foldl
    (fun s i => (s ||| (byteAt response (offset + i) <<< (8 * i))) % 256) 0

/-- fn_parse_response_header.  The response buffer and its length are one
list; the checksum is verified over a copy whose checksum byte is zeroed. -/
def fn_parse_response_header (response : List Nat) : Except Nat ParsedHeader :=
  let resp_len := response.length
  if resp_len < FN_HEADER_SIZE then .error FN_ERR_INVALID
  else
    let pkt_len := le16 response 2
    if pkt_len ≠ resp_len then .error FN_ERR_INVALID
    else if 1024 < resp_len then .error FN_ERR_INVALID
    else
      let tmp := (response.take resp_len).set 4 0
      let checksum := fn_calc_checksum tmp
      if checksum ≠ byteAt response 4 then .error FN_ERR_IOERR
      else
        let descr := byteAt response 5
        if descr = 0 then .ok ⟨FN_OK, FN_HEADER_SIZE, resp_len - FN_HEADER_SIZE⟩
        else
          match descrSkip response resp_len (resp_len + 1) descr FN_HEADER_SIZE with
          | none => .error FN_ERR_INVALID
          | some (d2, off) =>
            let field_desc := d2 % 8
            let field_size := fieldSizeTable.getD field_desc 0
            let field_count := fieldCountTable.getD field_desc 0
            if 0 < field_count ∧ off + field_size ≤ resp_len then
              let status := statusAccum response off field_size
              let off2 := off + field_size + field_size * (field_count - 1)
              .ok ⟨status, off2, sub16 resp_len off2⟩
            else
              .ok ⟨FN_OK, off, sub16 resp_len off⟩

/-- Result of fn_parse_open_response. -/
structure OpenResp where
  handle : Nat
  flags : Nat
deriving DecidableEq, Repr

/-- fn_parse_open_response: propagate header errors and non-success status,
require the 6-byte minimum payload, then read flags and handle. -/
def fn_parse_open_response (response : List Nat) : Except Nat OpenResp :=
  match fn_parse_response_header response with
  | .error e => .error e
  | .ok ph =>
    if ph.status ≠ FN_OK then .error ph.status
    else if ph.data_len < 6 then .error FN_ERR_INVALID
    else
      .ok ⟨le16 response (ph.data_offset + 4), byteAt response (ph.data_offset + 1)⟩

/-- Result of fn_parse_read_response.  `data` is exactly the byte window the
copy loop reads, index by index. -/
structure ReadResp where
  handle : Nat
  offset_echo : Nat
  flags : Nat
  data : List Nat
  data_len : Nat
deriving DecidableEq, Repr

/-- fn_parse_read_response: after the generic header, require the 12-byte
minimum payload, then read the fixed fields and copy
min(declared length, caller capacity) bytes from offset data_offset+12. -/
def fn_parse_read_response (response : List Nat) (data_max : Nat) :
    Except Nat ReadResp :=
  match fn_parse_response_header response with
  | .error e => .error e
  | .ok ph =>
    if ph.status ≠ FN_OK then .error ph.status
    else if ph.data_len < 12 then .error FN_ERR_INVALID
    else
      let flags := byteAt response (ph.data_offset + 1)
      let handle := le16 response (ph.data_offset + 4)
      let offset_echo := le32 response (ph.data_offset + 6)
      let actual_data_len := le16 response (ph.data_offset + 10)
      let copy_len := min actual_data_len data_max
      let data := (List.range copy_len).map
        (fun i => byteAt response (ph.data_offset + 12 + i))
      .ok ⟨handle, offset_echo, flags, data, actual_data_len⟩

/-- Result of fn_parse_info_response.  The handle out-parameter is left
unassigned on the short-payload path, hence an `Option`. -/
structure InfoResp where
  handle : Option Nat
  http_status : Nat
  content_length : Nat
  flags : Nat
deriving DecidableEq, Repr

/-- fn_parse_info_response: on a payload shorter than 16 bytes it returns
success with zeroed fields (the source comment calls this the minimal
response); otherwise it reads flags, handle, HTTP status and the low 32
bits of the content length. -/
def fn_parse_info_response (response : List Nat) : Except Nat InfoResp :=
  match fn_parse_response_header response with
  | .error e => .error e
  | .ok ph =>
    if ph.status ≠ FN_OK then .error ph.status
    else if ph.data_len < 16 then .ok ⟨none, 0, 0, 0⟩
    else
      .ok ⟨some (le16 response (ph.data_offset + 4)),
           le16 response (ph.data_offset + 6),
           le32 response (ph.data_offset + 8),
           byteAt response (ph.data_offset + 1)⟩

/-! ## Session table and network operations (fn_network.c)

The static session array becomes a list (of length FN_MAX_SESSIONS in the
running program); the transport collaborator becomes an oracle from the
request bytes to either an error code or the response bytes, and every
operation reports how many transport exchanges it performed. -/

/-- One entry of the session table (fn_session_t; fn_network.c also stores
the device handle in the entry). -/
structure FnSession where
  active : Bool
  is_tcp : Bool
  needs_body : Bool
  handle : Nat
  write_offset : Nat
  read_offset : Nat
deriving DecidableEq, Repr

instance : Inhabited FnSession := ⟨⟨false, false, false, 0, 0, 0⟩⟩

/-- The library state: the initialized flag, the session table, and the
contents of the 1024-byte static response buffer _resp_buf before the
call.  A transport exchange overwrites only the first resp_len cells of
that buffer, so indices past the delivered response hold stale bytes of
earlier exchanges; fn_write can read them (see writeAck).  The models do
not track the buffer update across calls, since no claim chains it. -/
structure FnState where
  initialized : Bool
  sessions : List FnSession
  resp_buf : List Nat
deriving DecidableEq, Repr

/-- The transport collaborator: one fn_transport_exchange, taking the request
bytes and returning either an error code or the response bytes. -/
def Transport : Type := List Nat → Except Nat (List Nat)

/-- _find_free_slot: index of the first inactive entry. -/
def findFreeIdx : List FnSession → Option Nat
  | [] => none
  | s :: rest =>
    if s.active then (findFreeIdx rest).map (fun i => i + 1) else some 0

/-- _find_session: index of the first active entry with the given handle. -/
def findSessionIdx (handle : Nat) : List FnSession → Option Nat
  | [] => none
  | s :: rest =>
    if s.active && s.handle == handle then some 0
    else (findSessionIdx handle rest).map (fun i => i + 1)

/-- _free_handle: deactivate the first active entry with the given handle,
if any. -/
def freeHandle (sessions : List FnSession) (handle : Nat) : List FnSession :=
  if handle = FN_INVALID_HANDLE then sessions
  else
    match findSessionIdx handle sessions with
    | none => sessions
    | some i => sessions.set i { sessions.getD i default with active := false }

/-- The open-flag translation at the top of fn_open (public FN_OPEN_* bits
to wire FN_OPEN_FLAG_* bits). -/
def mapOpenFlags (flags : Nat) : Nat :=
  (if flags % 2 = 1 then 1 else 0) +
    (if flags / 2 % 2 = 1 then 2 else 0) +
    (if flags / 8 % 2 = 1 then 8 else 0)

/-- The bytes of the literal "tcp://" compared by strncmp in fn_open. -/
def tcpSchemeBytes : List Nat := [0x74, 0x63, 0x70, 0x3A, 0x2F, 0x2F]

/-- Result of fn_open. -/
structure OpenOut where
  ret : Nat
  handle : Option Nat
  sessions : List FnSession
  exchanges : Nat
deriving DecidableEq, Repr

/-- fn_open: validate, build and exchange the Open packet, parse the
response, then record the device handle in the first free slot; with no
free slot the source keeps the device handle and returns success anyway. -/
def fn_open (st : FnState) (tr : Transport) (method : Nat) (url : List Nat)
    (flags : Nat) : OpenOut :=
  if st.initialized = false then ⟨FN_ERR_INVALID, none, st.sessions, 0⟩
  else if FN_MAX_URL_LEN < url.length then
    ⟨FN_ERR_URL_TOO_LONG, none, st.sessions, 0⟩
  else
    match fn_build_open_packet method (mapOpenFlags flags) url with
    | none => ⟨FN_ERR_INVALID, none, st.sessions, 0⟩
    | some req =>
      match tr req with
      | .error e => ⟨e, none, st.sessions, 1⟩
      | .ok resp =>
        match fn_parse_open_response resp with
        | .error e => ⟨e, none, st.sessions, 1⟩
        | .ok r =>
          match findFreeIdx st.sessions with
          | none => ⟨FN_OK, some r.handle, st.sessions, 1⟩
          | some slot =>
            ⟨FN_OK, some r.handle,
             st.sessions.set slot
               ⟨true, url.take 6 == tcpSchemeBytes, r.flags / 2 % 2 = 1,
                r.handle, 0, 0⟩,
             1⟩

/-- Result of fn_write. -/
structure WriteOut where
  ret : Nat
  written : Option Nat
  sessions : List FnSession
  exchanges : Nat
deriving DecidableEq, Repr

/-- fn_write: reject before any exchange when uninitialized, on the invalid
handle, on an unknown handle, or on an offset different from the
write cursor; otherwise exchange a Write packet and, when the header
parse reports a payload of at least 12 bytes, advance the write cursor
(a uint32 addition) by the 16-bit value at payload offset 10 of the
static response buffer.  The exchange fills only the first resp_len
cells of _resp_buf, so that read lands on stale bytes of an earlier
exchange whenever data_offset + 12 exceeds resp_len (reachable through a
descriptor frame whose data_len wraps).  The header parser itself only
reads indices below resp_len, so it is applied to the response alone. -/
def fn_write (st : FnState) (tr : Transport) (handle offset : Nat)
    (data : List Nat) : WriteOut :=
  if st.initialized = false then ⟨FN_ERR_INVALID, none, st.sessions, 0⟩
  else if handle = FN_INVALID_HANDLE then ⟨FN_ERR_INVALID, none, st.sessions, 0⟩
  else
    match findSessionIdx handle st.sessions with
    | none => ⟨FN_ERR_NOT_FOUND, none, st.sessions, 0⟩
    | some slot =>
      if offset ≠ (st.sessions.getD slot default).write_offset then
        ⟨FN_ERR_INVALID, none, st.sessions, 0⟩
      else
        let req := fn_build_write_packet handle offset data
        if req.length = 0 then ⟨FN_ERR_INVALID, none, st.sessions, 0⟩
        else
          match tr req with
          | .error e => ⟨e, none, st.sessions, 1⟩
          | .ok resp =>
            match fn_parse_response_header resp with
            | .error e => ⟨e, none, st.sessions, 1⟩
            | .ok ph =>
              if ph.status ≠ FN_OK then ⟨ph.status, none, st.sessions, 1⟩
              else if 12 ≤ ph.data_len then
                let w := le16 (resp ++ st.resp_buf.drop resp.length)
                  (ph.data_offset + 10)
                let s := st.sessions.getD slot default
                ⟨FN_OK, some w,
                 st.sessions.set slot
                   { s with write_offset := (s.write_offset + w) % 4294967296 },
                 1⟩
              else ⟨FN_OK, some 0, st.sessions, 1⟩

/-- Result of fn_read. -/
structure ReadOut where
  ret : Nat
  bytes_read : Option Nat
  flags : Option Nat
  buf : List Nat
  sessions : List FnSession
  exchanges : Nat
deriving DecidableEq, Repr

/-- fn_read: reject unknown handles before any exchange; otherwise exchange
a Read packet, parse the typed response, and for a TCP session advance the
read cursor by the reported byte count. -/
def fn_read (st : FnState) (tr : Transport) (handle offset max_len : Nat) :
    ReadOut :=
  if st.initialized = false then ⟨FN_ERR_INVALID, none, none, [], st.sessions, 0⟩
  else if handle = FN_INVALID_HANDLE then
    ⟨FN_ERR_INVALID, none, none, [], st.sessions, 0⟩
  else
    match findSessionIdx handle st.sessions with
    | none => ⟨FN_ERR_NOT_FOUND, none, none, [], st.sessions, 0⟩
    | some slot =>
      let req := fn_build_read_packet handle offset max_len
      if req.length = 0 then ⟨FN_ERR_INVALID, none, none, [], st.sessions, 0⟩
      else
        match tr req with
        | .error e => ⟨e, none, none, [], st.sessions, 1⟩
        | .ok resp =>
          match fn_parse_read_response resp max_len with
          | .error e => ⟨e, none, none, [], st.sessions, 1⟩
          | .ok r =>
            let s := st.sessions.getD slot default
            let sessions2 :=
              if s.is_tcp && 0 < r.data_len then
                st.sessions.set slot
                  { s with read_offset := (s.read_offset + r.data_len) % 4294967296 }
              else st.sessions
            ⟨FN_OK, some r.data_len, some r.flags, r.data, sessions2, 1⟩

/-- Result of fn_info. -/
structure InfoOut where
  ret : Nat
  info : Option InfoResp
  sessions : List FnSession
  exchanges : Nat
deriving DecidableEq, Repr

/-- fn_info: reject unknown handles before any exchange; otherwise exchange
an Info packet and return the typed parse result unchanged. -/
def fn_info (st : FnState) (tr : Transport) (handle : Nat) : InfoOut :=
  if st.initialized = false then ⟨FN_ERR_INVALID, none, st.sessions, 0⟩
  else if handle = FN_INVALID_HANDLE then ⟨FN_ERR_INVALID, none, st.sessions, 0⟩
  else
    match findSessionIdx handle st.sessions with
    | none => ⟨FN_ERR_NOT_FOUND, none, st.sessions, 0⟩
    | some _ =>
      let req := fn_build_info_packet handle
      if req.length = 0 then ⟨FN_ERR_INVALID, none, st.sessions, 0⟩
      else
        match tr req with
        | .error e => ⟨e, none, st.sessions, 1⟩
        | .ok resp =>
          match fn_parse_info_response resp with
          | .error e => ⟨e, none, st.sessions, 1⟩
          | .ok r => ⟨FN_OK, some r, st.sessions, 1⟩

/-- Result of fn_close. -/
structure CloseOut where
  ret : Nat
  sessions : List FnSession
  exchanges : Nat
deriving DecidableEq, Repr

/-- fn_close: no session lookup before the wire: it always exchanges the
Close packet, then frees any matching local entry, and returns the
transport exchange result. -/
def fn_close (st : FnState) (tr : Transport) (handle : Nat) : CloseOut :=
  if st.initialized = false then ⟨FN_ERR_INVALID, st.sessions, 0⟩
  else if handle = FN_INVALID_HANDLE then ⟨FN_ERR_INVALID, st.sessions, 0⟩
  else
    let req := fn_build_close_packet handle
    if req.length = 0 then ⟨FN_ERR_INVALID, st.sessions, 0⟩
    else
      let ret := match tr req with
        | .error e => e
        | .ok _ => FN_OK
      ⟨ret, freeHandle st.sessions handle, 1⟩

/-! ## Clock GetTime (fn_clock.c) -/

/-- Result of fn_clock_get. -/
structure ClockOut where
  ret : Nat
  time : Option Nat
  exchanges : Nat
deriving DecidableEq, Repr

/-- fn_clock_get: exchange a bare GetTime header, parse the generic header,
require the 12-byte minimum payload, reject an unrecognized version byte
with FN_ERR_UNSUPPORTED, then assemble the 8-byte little-endian
timestamp. -/
def fn_clock_get (tr : Transport) : ClockOut :=
  let req := setChecksum
    (fn_build_header FN_DEVICE_CLOCK FN_CMD_CLOCK_GET FN_HEADER_SIZE)
  if req.length = 0 then ⟨FN_ERR_INTERNAL, none, 0⟩
  else
    match tr req with
    | .error e => ⟨e, none, 1⟩
    | .ok resp =>
      match fn_parse_response_header resp with
      | .error e => ⟨e, none, 1⟩
      | .ok ph =>
        if ph.status ≠ FN_OK then ⟨ph.status, none, 1⟩
        else if ph.data_len < 12 then ⟨FN_ERR_INVALID, none, 1⟩
        else if byteAt resp ph.data_offset ≠ FN_CLOCK_VERSION then
          ⟨FN_ERR_UNSUPPORTED, none, 1⟩
        else
          let t := (List.range 8).foldl
            (fun acc i => acc ||| (byteAt resp (ph.data_offset + 4 + i) <<< (8 * i))) 0
          ⟨FN_OK, some t, 1⟩

/-- Result of the clock operations that return a byte string (formatted
time or timezone). -/
structure ClockDataOut where
  ret : Nat
  data : Option (List Nat)
  exchanges : Nat
deriving DecidableEq, Repr

/-- fn_clock_get_format: request version and format byte; on a success
response require the 2-byte minimum payload (version and format echo),
reject an unrecognized version, then copy the remaining data_len - 2
formatted-time bytes. -/
def fn_clock_get_format (tr : Transport) (format : Nat) : ClockDataOut :=
  let req := setChecksum
    (fn_build_header FN_DEVICE_CLOCK FN_CMD_CLOCK_GET_FORMAT (FN_HEADER_SIZE + 2) ++
      [FN_CLOCK_VERSION, format % 256])
  if req.length = 0 then ⟨FN_ERR_INTERNAL, none, 0⟩
  else
    match tr req with
    | .error e => ⟨e, none, 1⟩
    | .ok resp =>
      match fn_parse_response_header resp with
      | .error e => ⟨e, none, 1⟩
      | .ok ph =>
        if ph.status ≠ FN_OK then ⟨ph.status, none, 1⟩
        else if ph.data_len < 2 then ⟨FN_ERR_INVALID, none, 1⟩
        else if byteAt resp ph.data_offset ≠ FN_CLOCK_VERSION then
          ⟨FN_ERR_UNSUPPORTED, none, 1⟩
        else
          ⟨FN_OK, some ((List.range (ph.data_len - 2)).map
            (fun i => byteAt resp (ph.data_offset + 2 + i))), 1⟩

/-- fn_clock_get_tz: like fn_clock_get_format (the source reuses the
GetFormat command code) with the timezone string, clipped to
FN_MAX_TIMEZONE_LEN bytes, appended to the request; the response handling
is identical. -/
def fn_clock_get_tz (tr : Transport) (tz : List Nat) (format : Nat) :
    ClockDataOut :=
  let tz_len := min tz.length FN_MAX_TIMEZONE_LEN
  let req := setChecksum
    (fn_build_header FN_DEVICE_CLOCK FN_CMD_CLOCK_GET_FORMAT
        (FN_HEADER_SIZE + 3 + tz_len) ++
      ([FN_CLOCK_VERSION, format % 256, tz_len % 256] ++
        (tz.take tz_len).map (fun b => b % 256)))
  if req.length = 0 then ⟨FN_ERR_INTERNAL, none, 0⟩
  else
    match tr req with
    | .error e => ⟨e, none, 1⟩
    | .ok resp =>
      match fn_parse_response_header resp with
      | .error e => ⟨e, none, 1⟩
      | .ok ph =>
        if ph.status ≠ FN_OK then ⟨ph.status, none, 1⟩
        else if ph.data_len < 2 then ⟨FN_ERR_INVALID, none, 1⟩
        else if byteAt resp ph.data_offset ≠ FN_CLOCK_VERSION then
          ⟨FN_ERR_UNSUPPORTED, none, 1⟩
        else
          ⟨FN_OK, some ((List.range (ph.data_len - 2)).map
            (fun i => byteAt resp (ph.data_offset + 2 + i))), 1⟩

/-- fn_clock_get_timezone: bare GetTimezone request; on a success response
require the 2-byte minimum payload (version and length byte), reject an
unrecognized version, then copy at most FN_MAX_TIMEZONE_LEN - 1 bytes of
the timezone string (the C code NUL-terminates the caller buffer after
them). -/
def fn_clock_get_timezone (tr : Transport) : ClockDataOut :=
  let req := setChecksum
    (fn_build_header FN_DEVICE_CLOCK FN_CMD_CLOCK_GET_TZ FN_HEADER_SIZE)
  if req.length = 0 then ⟨FN_ERR_INTERNAL, none, 0⟩
  else
    match tr req with
    | .error e => ⟨e, none, 1⟩
    | .ok resp =>
      match fn_parse_response_header resp with
      | .error e => ⟨e, none, 1⟩
      | .ok ph =>
        if ph.status ≠ FN_OK then ⟨ph.status, none, 1⟩
        else if ph.data_len < 2 then ⟨FN_ERR_INVALID, none, 1⟩
        else if byteAt resp ph.data_offset ≠ FN_CLOCK_VERSION then
          ⟨FN_ERR_UNSUPPORTED, none, 1⟩
        else
          let tz_len := byteAt resp (ph.data_offset + 1)
          ⟨FN_OK, some ((List.range (min tz_len (FN_MAX_TIMEZONE_LEN - 1))).map
            (fun i => byteAt resp (ph.data_offset + 2 + i))), 1⟩

/-- fn_clock_sync_network_time: request carries the version byte only; the
response is handled exactly like GetTime (12-byte minimum payload,
version check, 8-byte little-endian timestamp). -/
def fn_clock_sync_network_time (tr : Transport) : ClockOut :=
  let req := setChecksum
    (fn_build_header FN_DEVICE_CLOCK FN_CMD_CLOCK_SYNC_NETWORK_TIME
        (FN_HEADER_SIZE + 1) ++ [FN_CLOCK_VERSION])
  if req.length = 0 then ⟨FN_ERR_INTERNAL, none, 0⟩
  else
    match tr req with
    | .error e => ⟨e, none, 1⟩
    | .ok resp =>
      match fn_parse_response_header resp with
      | .error e => ⟨e, none, 1⟩
      | .ok ph =>
        if ph.status ≠ FN_OK then ⟨ph.status, none, 1⟩
        else if ph.data_len < 12 then ⟨FN_ERR_INVALID, none, 1⟩
        else if byteAt resp ph.data_offset ≠ FN_CLOCK_VERSION then
          ⟨FN_ERR_UNSUPPORTED, none, 1⟩
        else
          let t := (List.range 8).foldl
            (fun acc i => acc ||| (byteAt resp (ph.data_offset + 4 + i) <<< (8 * i))) 0
          ⟨FN_OK, some t, 1⟩

/-! ## Derived notions and concrete instances used in the statements -/

/-- The 16-bit acknowledgement value fn_write reads after a header parse
with success status and a payload of at least 12 bytes: two bytes of the
static response buffer at payload offset 10.  The delivered response
occupies the buffer prefix and the pre-call contents remain beyond it, so
when data_offset + 12 is within resp_len this value is the bytes-accepted
count the device reported, and otherwise it is stale buffer content. -/
def writeAck (resp buf : List Nat) : Option Nat :=
  match fn_parse_response_header resp with
  | .error _ => none
  | .ok ph =>
    if ph.status = FN_OK ∧ 12 ≤ ph.data_len then
      some (le16 (resp ++ buf.drop resp.length) (ph.data_offset + 10))
    else none

/-- The status code fn_transport_exchange reports for a request. -/
def exchangeStatus (tr : Transport) (req : List Nat) : Nat :=
  match tr req with
  | .error e => e
  | .ok _ => FN_OK

/-- An active session entry with the given handle and zero cursors. -/
def activeSession (h : Nat) : FnSession := ⟨true, false, false, h, 0, 0⟩

/-- A transport stub whose exchange always times out. -/
def trFail : Transport := fun _ => .error FN_ERR_TIMEOUT

/-- A transport stub answering every exchange with the same response. -/
def trConst (resp : List Nat) : Transport := fun _ => .ok resp

/-- Initialized state, one active session with handle 1. -/
def st1 : FnState :=
  ⟨true, [activeSession 1, default, default, default], List.replicate 1024 0⟩

/-- Initialized state with an empty session table. -/
def stEmpty : FnState := ⟨true, List.replicate 4 default, List.replicate 1024 0⟩

/-- Initialized state with all four slots active (handles 1 to 4). -/
def stFull : FnState :=
  ⟨true, [activeSession 1, activeSession 2, activeSession 3, activeSession 4],
   List.replicate 1024 0⟩

/-- Initialized state holding handle 5 in two active slots. -/
def stDup : FnState :=
  ⟨true, [activeSession 5, activeSession 5, default, default], List.replicate 1024 0⟩

/-- A minimal valid response frame: bare success header, empty payload. -/
def frame6 : List Nat := [1, 5, 6, 0, 12, 0]

/-- A valid Open response frame whose payload version byte is 85. -/
def frameOpen85 : List Nat := [1, 1, 12, 0, 108, 0, 85, 2, 0, 0, 7, 0]

/-- A valid Open response frame: version 1, flags 1, handle 9. -/
def frameOpenOk : List Nat := [1, 1, 12, 0, 25, 0, 1, 1, 0, 0, 9, 0]

/-- A valid clock GetTime response frame whose version byte is 2. -/
def frameClockV2 : List Nat :=
  [1, 1, 18, 0, 58, 0, 2, 0, 0, 0, 1, 2, 3, 4, 5, 6, 7, 8]

/-- A valid Read response frame declaring 100 data bytes while carrying
none. -/
def frameRead100 : List Nat :=
  [1, 2, 18, 0, 123, 0, 1, 0, 0, 0, 1, 0, 0, 0, 0, 0, 100, 0]

/-- Initialized state, one active session with handle 1, and a response
buffer whose stale cells all hold 9. -/
def stW : FnState :=
  ⟨true, [activeSession 1, default, default, default], List.replicate 1024 9⟩

/-- A checksum-valid 7-byte Write response with descriptor 4 (four 1-byte
fields): the parser places the payload at offset 10 with the uint16
length wrapped to 65533, so the acknowledgement bytes lie beyond the
response. -/
def wFrame : List Nat := [1, 3, 7, 0, 15, 4, 0]

/-- A well-formed 24-byte Write acknowledgement frame whose fixed fields
lie inside the response; the accepted count at payload offset 10 is 5. -/
def wAckFrame : List Nat :=
  [1, 3, 24, 0, 185, 0, 1, 0, 0, 0, 1, 0, 0, 0, 0, 0, 5, 0, 65, 66, 67, 68, 69, 70]

/-- A valid Read response frame declaring 2 data bytes and carrying both. -/
def frameRead2 : List Nat :=
  [1, 2, 20, 0, 158, 0, 1, 0, 0, 0, 1, 0, 0, 0, 0, 0, 2, 0, 65, 66]

/-! ## Helper lemmas -/

theorem getD_set (l : List FnSession) (j i : Nat) (a : FnSession) :
    (l.set j a).getD i default = if j = i ∧ j < l.length then a else l.getD i default := by
  rw [List.getD_eq_getElem?_getD, List.getD_eq_getElem?_getD, List.getElem?_set]
  by_cases h1 : j = i
  · subst h1
    by_cases h2 : j < l.length
    · simp [h2]
    · have hnone : l[j]? = none := List.getElem?_eq_none (by omega)
      simp [h2, hnone]
  · simp [h1]

theorem findSessionIdx_some {h : Nat} {l : List FnSession} {i : Nat}
    (hf : findSessionIdx h l = some i) :
    i < l.length ∧ (l.getD i default).active = true ∧ (l.getD i default).handle = h := by
  induction l generalizing i with
  | nil => simp [findSessionIdx] at hf
  | cons s rest ih =>
    by_cases hc : s.active && s.handle == h
    · simp [findSessionIdx, hc] at hf
      subst hf
      simp only [Bool.and_eq_true, beq_iff_eq] at hc
      simp [hc.1, hc.2, List.getD_cons_zero]
    · rw [findSessionIdx, if_neg hc, Option.map_eq_some'] at hf
      obtain ⟨i2, hi2, rfl⟩ := hf
      obtain ⟨hl, ha, hh⟩ := ih hi2
      refine ⟨by simpa using Nat.succ_lt_succ hl, ?_, ?_⟩
      · simpa [List.getD_cons_succ] using ha
      · simpa [List.getD_cons_succ] using hh

theorem findSessionIdx_none {h : Nat} {l : List FnSession}
    (hf : findSessionIdx h l = none) :
    ∀ k, ¬((l.getD k default).active = true ∧ (l.getD k default).handle = h) := by
  induction l with
  | nil =>
    intro k
    rcases k with _ | k <;> simp [List.getD, default, Inhabited.default]
  | cons s rest ih =>
    by_cases hc : s.active && s.handle == h
    · simp [findSessionIdx, hc] at hf
    · rw [findSessionIdx, if_neg hc, Option.map_eq_none'] at hf
      intro k
      rcases k with _ | k
      · simp only [List.getD_cons_zero]
        intro hk
        exact hc (by simp [hk.1, hk.2])
      · simpa [List.getD_cons_succ] using ih hf k

theorem findFreeIdx_some {l : List FnSession} {i : Nat}
    (hf : findFreeIdx l = some i) :
    i < l.length ∧ (l.getD i default).active = false := by
  induction l generalizing i with
  | nil => simp [findFreeIdx] at hf
  | cons s rest ih =>
    by_cases hc : s.active
    · rw [findFreeIdx, if_pos hc, Option.map_eq_some'] at hf
      obtain ⟨i2, hi2, rfl⟩ := hf
      obtain ⟨hl, ha⟩ := ih hi2
      exact ⟨by simpa using Nat.succ_lt_succ hl, by simpa [List.getD_cons_succ] using ha⟩
    · simp [findFreeIdx, hc] at hf
      subst hf
      simp [List.getD_cons_zero, Bool.not_eq_true] at hc ⊢
      exact hc

/-! ## Claim C1: SLIP round trip -/

theorem slip_decode_encodeBody (b : List Nat) :
    slipDecodeLoop (slipEncodeBody b ++ [SLIP_END]) = some b := by
  induction b with
  | nil => simp [slipEncodeBody, slipDecodeLoop, SLIP_END]
  | cons x rest ih =>
    simp only [SLIP_END, SLIP_ESCAPE, SLIP_ESC_END, SLIP_ESC_ESC] at ih ⊢
    by_cases hEnd : x = 0xC0
    · subst hEnd
      simp [slipEncodeBody, slipEscByte, slipDecodeLoop, ih, SLIP_END, SLIP_ESCAPE,
        SLIP_ESC_END, SLIP_ESC_ESC]
    · by_cases hEsc : x = 0xDB
      · subst hEsc
        simp [slipEncodeBody, slipEscByte, slipDecodeLoop, ih, SLIP_END, SLIP_ESCAPE,
          SLIP_ESC_END, SLIP_ESC_ESC]
      · cases hsplit : slipEncodeBody rest ++ [192] with
        | nil => exact absurd hsplit (by simp)
        | cons c L2 =>
          rw [hsplit] at ih
          simp [slipEncodeBody, slipEscByte, hEnd, hEsc, hsplit, slipDecodeLoop, ih,
            SLIP_END, SLIP_ESCAPE, SLIP_ESC_END, SLIP_ESC_ESC]

theorem slipEncodeBody_replicate_zero (n : Nat) :
    slipEncodeBody (List.replicate n 0) = List.replicate n 0 := by
  induction n with
  | zero => rfl
  | succ k ih =>
    simp [List.replicate_succ, slipEncodeBody, slipEscByte, SLIP_END, SLIP_ESCAPE, ih]

theorem fn_slip_encode_no_wrap (input : List Nat)
    (h : (slipEncodeStream input).length ≤ 65535) :
    fn_slip_encode input = slipEncodeStream input := by
  simp only [fn_slip_encode]
  rw [Nat.mod_eq_of_lt (by omega)]
  apply List.ext_getElem
  · simp
  · intro n h1 h2
    simp only [List.getElem_map, List.getElem_range]
    rw [Nat.div_eq_of_lt (by omega), Nat.mul_zero, Nat.add_zero]
    exact List.getD_eq_getElem _ _ h2

/-- Claim C1 (amended): for every byte sequence b - including sequences
containing the SLIP END (0xC0) and ESCAPE (0xDB) bytes - whose encoded
stream (two END markers plus the escaped body) is at most 65535 bytes, so
the uint16 write counter does not wrap, decoding the encoding of b
returns exactly b. -/
theorem slip_roundtrip (b : List Nat) (hb : ∀ x ∈ b, x < 256)
    (hlen : (slipEncodeStream b).length ≤ 65535) :
    fn_slip_decode (fn_slip_encode b) = some b := by
  have _ := hb
  rw [fn_slip_encode_no_wrap b hlen]
  simp only [slipEncodeStream, fn_slip_decode, if_pos rfl]
  exact slip_decode_encodeBody b

/-- Counterexample to C1 as stated: encoding 65534 zero bytes writes a
65536-byte stream, the uint16 out_len wraps to 0, and the round trip
yields the empty sequence instead of the input. -/
theorem slip_roundtrip_cex :
    fn_slip_encode (List.replicate 65534 0) = [] ∧
    fn_slip_decode (fn_slip_encode (List.replicate 65534 0)) = some [] ∧
    some ([] : List Nat) ≠ some (List.replicate 65534 0) := by
  have hlen : (slipEncodeStream (List.replicate 65534 0)).length = 65536 := by
    rw [slipEncodeStream, slipEncodeBody_replicate_zero, List.length_cons,
      List.length_append, List.length_replicate, List.length_cons, List.length_nil]
  have henc : fn_slip_encode (List.replicate 65534 0) = [] := by
    simp only [fn_slip_encode]
    rw [hlen, (by norm_num : (65536 : Nat) % 65536 = 0), List.range_zero,
      List.map_nil]
  refine ⟨henc, by rw [henc]; rfl, ?_⟩
  intro hcontra
  have hlists := Option.some.inj hcontra
  have hlen2 := congrArg List.length hlists
  rw [List.length_nil, List.length_replicate] at hlen2
  exact absurd hlen2 (by norm_num)

/-- Witness for the amended C1 at a concrete byte sequence containing both
the sentinel and the escape byte. -/
theorem slip_roundtrip_witness :
    (∀ x ∈ [0xC0, 0xDB, 0x00, 0x41], x < 256) ∧
    (slipEncodeStream [0xC0, 0xDB, 0x00, 0x41]).length ≤ 65535 ∧
    fn_slip_decode (fn_slip_encode [0xC0, 0xDB, 0x00, 0x41]) =
      some [0xC0, 0xDB, 0x00, 0x41] :=
  ⟨by decide, by decide,
   slip_roundtrip [0xC0, 0xDB, 0x00, 0x41] (by decide) (by decide)⟩

/-! ## Claim C2: frames built by the codec re-parse -/

theorem parse_header_cons (b0 b1 : Nat) (tail : List Nat) (hlen : tail.length ≤ 1018) :
    fn_parse_response_header
      (b0 :: b1 :: (6 + tail.length) % 256 :: (6 + tail.length) / 256 % 256 ::
        fn_calc_checksum
          (b0 :: b1 :: (6 + tail.length) % 256 :: (6 + tail.length) / 256 % 256 ::
            0 :: 0 :: tail) :: 0 :: tail) =
      .ok ⟨FN_OK, FN_HEADER_SIZE, tail.length⟩ ∧
    le16
      (b0 :: b1 :: (6 + tail.length) % 256 :: (6 + tail.length) / 256 % 256 ::
        fn_calc_checksum
          (b0 :: b1 :: (6 + tail.length) % 256 :: (6 + tail.length) / 256 % 256 ::
            0 :: 0 :: tail) :: 0 :: tail) 2 = 6 + tail.length := by
  set L := tail.length with hL
  set B := b0 :: b1 :: (6 + L) % 256 :: (6 + L) / 256 % 256 :: 0 :: 0 :: tail with hB
  set chk := fn_calc_checksum B with hchk
  set F := b0 :: b1 :: (6 + L) % 256 :: (6 + L) / 256 % 256 :: chk :: 0 :: tail with hF
  have hchklt : chk < 256 := by
    rw [hchk, fn_calc_checksum]
    omega
  have hlenF : F.length = 6 + L := by
    simp only [hF, List.length_cons, hL]
    omega
  have hle : le16 F 2 = 6 + L := by
    simp only [le16, byteAt, hF, List.getD_cons_succ, List.getD_cons_zero]
    omega
  refine ⟨?_, hle⟩
  rw [fn_parse_response_header]
  simp only [hlenF, hle, FN_HEADER_SIZE, FN_OK, FN_ERR_INVALID, FN_ERR_IOERR]
  rw [if_neg (by omega : ¬6 + L < 6)]
  rw [if_neg (by omega : ¬6 + L ≠ 6 + L)]
  rw [if_neg (by omega : ¬1024 < 6 + L)]
  have htmp : (F.take (6 + L)).set 4 0 = B := by
    rw [← hlenF, List.take_length, hF, hB]
    simp [List.set]
  rw [htmp]
  have hb4 : byteAt F 4 = chk := by
    simp only [byteAt, hF, List.getD_cons_succ, List.getD_cons_zero]
    omega
  rw [← hchk, hb4, if_neg (by omega : ¬chk ≠ chk)]
  have hb5 : byteAt F 5 = 0 := by
    simp [byteAt, hF]
  rw [hb5, if_pos rfl]
  have hsub : 6 + L - 6 = L := by omega
  rw [hsub]

theorem setChecksum_build (dev cmd T : Nat) (tail : List Nat) (hT : T = 6 + tail.length) :
    setChecksum (fn_build_header dev cmd T ++ tail) =
      dev % 256 :: cmd % 256 :: (6 + tail.length) % 256 :: (6 + tail.length) / 256 % 256 ::
        fn_calc_checksum (dev % 256 :: cmd % 256 :: (6 + tail.length) % 256 ::
          (6 + tail.length) / 256 % 256 :: 0 :: 0 :: tail) :: 0 :: tail := by
  subst hT
  simp [setChecksum, fn_build_header, List.set]

theorem parse_header_of_build (dev cmd T : Nat) (tail : List Nat)
    (hT : T = 6 + tail.length) (hlen : tail.length ≤ 1018) :
    fn_parse_response_header (setChecksum (fn_build_header dev cmd T ++ tail)) =
      .ok ⟨FN_OK, FN_HEADER_SIZE, tail.length⟩ ∧
    le16 (setChecksum (fn_build_header dev cmd T ++ tail)) 2 =
      (setChecksum (fn_build_header dev cmd T ++ tail)).length := by
  rw [setChecksum_build dev cmd T tail hT]
  refine ⟨(parse_header_cons (dev % 256) (cmd % 256) tail hlen).1, ?_⟩
  rw [(parse_header_cons (dev % 256) (cmd % 256) tail hlen).2]
  simp only [List.length_cons]
  omega

theorem open_reparse (method flags : Nat) (url : List Nat)
    (hurl : url.length ≤ FN_MAX_URL_LEN) :
    ∃ req, fn_build_open_packet method flags url = some req ∧
      fn_parse_response_header req = .ok ⟨FN_OK, FN_HEADER_SIZE, 13 + url.length⟩ ∧
      le16 req 2 = req.length := by
  simp only [FN_MAX_URL_LEN] at hurl
  rw [fn_build_open_packet, if_neg (by simp only [FN_MAX_URL_LEN]; omega)]
  refine ⟨_, rfl, ?_⟩
  rw [List.append_assoc, List.append_assoc, List.append_assoc, List.append_assoc]
  have h := parse_header_of_build FN_DEVICE_NETWORK FN_CMD_OPEN
    (FN_HEADER_SIZE + (1 + 1 + 1 + 2 + url.length + 2 + 4 + 2))
    ([FN_PROTOCOL_VERSION, method % 256, flags % 256,
      url.length % 256, url.length / 256 % 256] ++
      (url ++ ([0, 0] ++ ([0, 0, 0, 0] ++ [0, 0]))))
    (by simp [FN_HEADER_SIZE]; omega)
    (by simp; omega)
  refine ⟨?_, h.2⟩
  rw [h.1]
  have : ([FN_PROTOCOL_VERSION, method % 256, flags % 256,
      url.length % 256, url.length / 256 % 256] ++
      (url ++ ([0, 0] ++ ([0, 0, 0, 0] ++ [0, 0])))).length = 13 + url.length := by
    simp
    omega
  rw [this]

theorem read_reparse (handle offv maxb : Nat) :
    fn_parse_response_header (fn_build_read_packet handle offv maxb) =
      .ok ⟨FN_OK, FN_HEADER_SIZE, 9⟩ ∧
    le16 (fn_build_read_packet handle offv maxb) 2 =
      (fn_build_read_packet handle offv maxb).length := by
  rw [fn_build_read_packet]
  have h := parse_header_of_build FN_DEVICE_NETWORK FN_CMD_READ (FN_HEADER_SIZE + 9)
    [FN_PROTOCOL_VERSION, handle % 256, handle / 256 % 256,
     offv % 256, offv / 256 % 256, offv / 65536 % 256, offv / 16777216 % 256,
     maxb % 256, maxb / 256 % 256]
    (by simp [FN_HEADER_SIZE]) (by simp)
  exact h

theorem write_reparse (handle offv : Nat) (data : List Nat)
    (hdata : data.length ≤ 1009) :
    fn_parse_response_header (fn_build_write_packet handle offv data) =
      .ok ⟨FN_OK, FN_HEADER_SIZE, 9 + data.length⟩ ∧
    le16 (fn_build_write_packet handle offv data) 2 =
      (fn_build_write_packet handle offv data).length := by
  rw [fn_build_write_packet]
  simp only [List.append_assoc]
  have h := parse_header_of_build FN_DEVICE_NETWORK FN_CMD_WRITE
    ((FN_HEADER_SIZE + (1 + 2 + 4 + 2 + data.length) % 65536) % 65536)
    ([FN_PROTOCOL_VERSION, handle % 256, handle / 256 % 256,
      offv % 256, offv / 256 % 256, offv / 65536 % 256, offv / 16777216 % 256,
      data.length % 256, data.length / 256 % 256] ++ data)
    (by simp [FN_HEADER_SIZE]; omega) (by simp; omega)
  refine ⟨?_, h.2⟩
  rw [h.1]
  have : ([FN_PROTOCOL_VERSION, handle % 256, handle / 256 % 256,
      offv % 256, offv / 256 % 256, offv / 65536 % 256, offv / 16777216 % 256,
      data.length % 256, data.length / 256 % 256] ++ data).length = 9 + data.length := by
    simp
    omega
  rw [this]

theorem close_reparse (handle : Nat) :
    fn_parse_response_header (fn_build_close_packet handle) =
      .ok ⟨FN_OK, FN_HEADER_SIZE, 3⟩ ∧
    le16 (fn_build_close_packet handle) 2 = (fn_build_close_packet handle).length := by
  rw [fn_build_close_packet]
  exact parse_header_of_build FN_DEVICE_NETWORK FN_CMD_CLOSE (FN_HEADER_SIZE + 3)
    [FN_PROTOCOL_VERSION, handle % 256, handle / 256 % 256]
    (by simp [FN_HEADER_SIZE]) (by simp)

theorem info_reparse (handle : Nat) :
    fn_parse_response_header (fn_build_info_packet handle) =
      .ok ⟨FN_OK, FN_HEADER_SIZE, 3⟩ ∧
    le16 (fn_build_info_packet handle) 2 = (fn_build_info_packet handle).length := by
  rw [fn_build_info_packet]
  exact parse_header_of_build FN_DEVICE_NETWORK FN_CMD_INFO (FN_HEADER_SIZE + 3)
    [FN_PROTOCOL_VERSION, handle % 256, handle / 256 % 256]
    (by simp [FN_HEADER_SIZE]) (by simp)

/-- Claim C2 (amended): every frame produced by the codec build functions
- the Open builder under its URL length bound, and the Write builder with
data short enough that the frame fits the 1024-byte limit the parser
imposes via its checksum buffer, data length at most 1009 - re-parses with
the generic header parser: success, declared total length equal to the
built length, checksum-valid, and the success status the builders encode
through descriptor 0. -/
theorem codec_build_reparse :
    (∀ method flags url, url.length ≤ FN_MAX_URL_LEN →
      ∃ req, fn_build_open_packet method flags url = some req ∧
        fn_parse_response_header req = .ok ⟨FN_OK, FN_HEADER_SIZE, 13 + url.length⟩ ∧
        le16 req 2 = req.length) ∧
    (∀ handle offv maxb,
      fn_parse_response_header (fn_build_read_packet handle offv maxb) =
        .ok ⟨FN_OK, FN_HEADER_SIZE, 9⟩ ∧
      le16 (fn_build_read_packet handle offv maxb) 2 =
        (fn_build_read_packet handle offv maxb).length) ∧
    (∀ handle offv data, data.length ≤ 1009 →
      fn_parse_response_header (fn_build_write_packet handle offv data) =
        .ok ⟨FN_OK, FN_HEADER_SIZE, 9 + data.length⟩ ∧
      le16 (fn_build_write_packet handle offv data) 2 =
        (fn_build_write_packet handle offv data).length) ∧
    (∀ handle,
      fn_parse_response_header (fn_build_close_packet handle) =
        .ok ⟨FN_OK, FN_HEADER_SIZE, 3⟩ ∧
      le16 (fn_build_close_packet handle) 2 = (fn_build_close_packet handle).length) ∧
    (∀ handle,
      fn_parse_response_header (fn_build_info_packet handle) =
        .ok ⟨FN_OK, FN_HEADER_SIZE, 3⟩ ∧
      le16 (fn_build_info_packet handle) 2 = (fn_build_info_packet handle).length) :=
  ⟨open_reparse, read_reparse, write_reparse, close_reparse, info_reparse⟩

set_option maxRecDepth 10000 in
/-- Counterexample to C2 as stated: a Write frame built from 1010 data
bytes is 1025 bytes long and the header parser rejects it (its checksum
scratch buffer holds 1024 bytes), so not every built frame re-parses. -/
theorem codec_build_reparse_cex :
    fn_parse_response_header (fn_build_write_packet 1 0 (List.replicate 1010 0)) =
      .error FN_ERR_INVALID := by
  decide

/-- Witness for C2 at concrete builder inputs. -/
theorem codec_build_reparse_witness :
    (∃ req, fn_build_open_packet 1 0 [97] = some req ∧
      fn_parse_response_header req = .ok ⟨FN_OK, FN_HEADER_SIZE, 14⟩ ∧
      le16 req 2 = req.length) ∧
    (fn_parse_response_header (fn_build_read_packet 1 0 512) =
        .ok ⟨FN_OK, FN_HEADER_SIZE, 9⟩ ∧
      le16 (fn_build_read_packet 1 0 512) 2 = (fn_build_read_packet 1 0 512).length) ∧
    (fn_parse_response_header (fn_build_write_packet 1 0 [65]) =
        .ok ⟨FN_OK, FN_HEADER_SIZE, 10⟩ ∧
      le16 (fn_build_write_packet 1 0 [65]) 2 = (fn_build_write_packet 1 0 [65]).length) ∧
    (fn_parse_response_header (fn_build_close_packet 1) =
        .ok ⟨FN_OK, FN_HEADER_SIZE, 3⟩ ∧
      le16 (fn_build_close_packet 1) 2 = (fn_build_close_packet 1).length) ∧
    (fn_parse_response_header (fn_build_info_packet 1) =
        .ok ⟨FN_OK, FN_HEADER_SIZE, 3⟩ ∧
      le16 (fn_build_info_packet 1) 2 = (fn_build_info_packet 1).length) :=
  ⟨codec_build_reparse.1 1 0 [97] (by decide),
   codec_build_reparse.2.1 1 0 512,
   codec_build_reparse.2.2.1 1 0 [65] (by decide),
   codec_build_reparse.2.2.2.1 1,
   codec_build_reparse.2.2.2.2 1⟩

/-! ## Claim C3: a Write at the wrong offset is rejected locally -/

/-- Claim C3: on an initialized state, for an active session found for the
handle, an offset different from that session write cursor makes fn_write
return the argument error with zero transport exchanges and the session
table unchanged. -/
theorem write_wrong_offset_rejected (st : FnState) (tr : Transport)
    (handle offset : Nat) (data : List Nat) (slot : Nat)
    (hinit : st.initialized = true)
    (hfind : findSessionIdx handle st.sessions = some slot)
    (hoff : offset ≠ (st.sessions.getD slot default).write_offset) :
    fn_write st tr handle offset data = ⟨FN_ERR_INVALID, none, st.sessions, 0⟩ := by
  rw [fn_write, hinit]
  by_cases hh : handle = FN_INVALID_HANDLE
  · simp [hh]
  · rw [List.getD_eq_getElem?_getD] at hoff
    simp [hh, hfind, hoff]

/-- Witness for C3: handle 1 is active with write cursor 0, a Write at
offset 5 is rejected without touching the transport. -/
theorem write_wrong_offset_rejected_witness :
    fn_write st1 trFail 1 5 [7] = ⟨FN_ERR_INVALID, none, st1.sessions, 0⟩ :=
  write_wrong_offset_rejected st1 trFail 1 5 [7] 0 (by decide) (by decide) (by decide)

/-! ## Claim C4: operations on unknown handles -/

/-- Claim C4 (amended): on an initialized state, for a nonzero handle with
no active session, fn_read, fn_write and fn_info return the not-found
error with zero transport exchanges and an unchanged table; fn_close,
however, performs its single wire exchange regardless, returns the
transport status, and leaves the table unchanged. -/
theorem unknown_handle_rejected (st : FnState) (tr : Transport)
    (handle offset max_len : Nat) (data : List Nat)
    (hinit : st.initialized = true) (hh : handle ≠ FN_INVALID_HANDLE)
    (hfind : findSessionIdx handle st.sessions = none) :
    fn_read st tr handle offset max_len =
      ⟨FN_ERR_NOT_FOUND, none, none, [], st.sessions, 0⟩ ∧
    fn_write st tr handle offset data = ⟨FN_ERR_NOT_FOUND, none, st.sessions, 0⟩ ∧
    fn_info st tr handle = ⟨FN_ERR_NOT_FOUND, none, st.sessions, 0⟩ ∧
    fn_close st tr handle =
      ⟨exchangeStatus tr (fn_build_close_packet handle), st.sessions, 1⟩ := by
  refine ⟨?_, ?_, ?_, ?_⟩
  · rw [fn_read, hinit]
    simp [hh, hfind]
  · rw [fn_write, hinit]
    simp [hh, hfind]
  · rw [fn_info, hinit]
    simp [hh, hfind]
  · rw [fn_close, hinit]
    have hlen : (fn_build_close_packet handle).length = 9 := by
      simp [fn_build_close_packet, setChecksum, fn_build_header]
    have hfree : freeHandle st.sessions handle = st.sessions := by
      rw [freeHandle, if_neg hh, hfind]
    simp [hh, hlen, hfree, exchangeStatus]

/-- Counterexample to C4 as stated: with an empty session table, fn_close
on handle 1 still performs one transport exchange and returns the
transport status (here a timeout), not the not-found error. -/
theorem unknown_handle_rejected_cex :
    findSessionIdx 1 stEmpty.sessions = none ∧
    fn_close stEmpty trFail 1 = ⟨FN_ERR_TIMEOUT, stEmpty.sessions, 1⟩ ∧
    FN_ERR_TIMEOUT ≠ FN_ERR_NOT_FOUND := by
  refine ⟨by decide, ?_, by decide⟩
  decide

/-- Witness for C4 on the empty table with handle 1. -/
theorem unknown_handle_rejected_witness :
    fn_read stEmpty trFail 1 0 16 =
      ⟨FN_ERR_NOT_FOUND, none, none, [], stEmpty.sessions, 0⟩ ∧
    fn_write stEmpty trFail 1 0 [7] = ⟨FN_ERR_NOT_FOUND, none, stEmpty.sessions, 0⟩ ∧
    fn_info stEmpty trFail 1 = ⟨FN_ERR_NOT_FOUND, none, stEmpty.sessions, 0⟩ ∧
    fn_close stEmpty trFail 1 =
      ⟨exchangeStatus trFail (fn_build_close_packet 1), stEmpty.sessions, 1⟩ :=
  unknown_handle_rejected stEmpty trFail 1 0 16 [7] (by decide) (by decide) (by decide)

/-! ## Claim C5: short payloads -/

/-- Claim C5 (amended): when the generic header parses with success status,
a payload shorter than the typed minimum makes the Open parser, the Read
parser and every clock response path (GetTime, SyncNetworkTime,
GetFormat, GetTz, GetTimezone) return the invalid-frame error; the Info
parser, however, returns success with explicitly zeroed status, length and
flag fields and an unassigned handle. -/
theorem short_payload_policy (resp : List Nat) (ph : ParsedHeader)
    (dmax fmt : Nat) (tz : List Nat)
    (hph : fn_parse_response_header resp = .ok ph) (hst : ph.status = FN_OK) :
    (ph.data_len < 6 → fn_parse_open_response resp = .error FN_ERR_INVALID) ∧
    (ph.data_len < 12 → fn_parse_read_response resp dmax = .error FN_ERR_INVALID) ∧
    (ph.data_len < 12 → fn_clock_get (trConst resp) = ⟨FN_ERR_INVALID, none, 1⟩) ∧
    (ph.data_len < 12 →
      fn_clock_sync_network_time (trConst resp) = ⟨FN_ERR_INVALID, none, 1⟩) ∧
    (ph.data_len < 2 →
      fn_clock_get_format (trConst resp) fmt = ⟨FN_ERR_INVALID, none, 1⟩) ∧
    (ph.data_len < 2 →
      fn_clock_get_tz (trConst resp) tz fmt = ⟨FN_ERR_INVALID, none, 1⟩) ∧
    (ph.data_len < 2 →
      fn_clock_get_timezone (trConst resp) = ⟨FN_ERR_INVALID, none, 1⟩) ∧
    (ph.data_len < 16 → fn_parse_info_response resp = .ok ⟨none, 0, 0, 0⟩) := by
  refine ⟨?_, ?_, ?_, ?_, ?_, ?_, ?_, ?_⟩
  · intro hd
    rw [fn_parse_open_response]
    simp [hph, hst, hd]
  · intro hd
    rw [fn_parse_read_response]
    simp [hph, hst, hd]
  · intro hd
    rw [fn_clock_get]
    simp [trConst, setChecksum, fn_build_header, hph, hst, hd]
  · intro hd
    rw [fn_clock_sync_network_time]
    simp [trConst, setChecksum, fn_build_header, hph, hst, hd]
  · intro hd
    rw [fn_clock_get_format]
    simp [trConst, setChecksum, fn_build_header, hph, hst, hd]
  · intro hd
    rw [fn_clock_get_tz]
    simp [trConst, setChecksum, fn_build_header, hph, hst, hd]
  · intro hd
    rw [fn_clock_get_timezone]
    simp [trConst, setChecksum, fn_build_header, hph, hst, hd]
  · intro hd
    rw [fn_parse_info_response]
    simp [hph, hst, hd]

/-- Counterexample to C5 as stated: a success frame with an empty payload
makes fn_parse_info_response return success with zeroed fields, not the
invalid-frame error. -/
theorem short_payload_policy_cex :
    fn_parse_response_header frame6 = .ok ⟨FN_OK, 6, 0⟩ ∧
    fn_parse_info_response frame6 = .ok ⟨none, 0, 0, 0⟩ ∧
    (Except.ok (⟨none, 0, 0, 0⟩ : InfoResp) : Except Nat InfoResp) ≠
      .error FN_ERR_INVALID := by
  refine ⟨by decide, by decide, by decide⟩

/-- Witness for C5 at the concrete empty-payload success frame. -/
theorem short_payload_policy_witness :
    fn_parse_open_response frame6 = .error FN_ERR_INVALID ∧
    fn_parse_read_response frame6 512 = .error FN_ERR_INVALID ∧
    fn_clock_get (trConst frame6) = ⟨FN_ERR_INVALID, none, 1⟩ ∧
    fn_clock_sync_network_time (trConst frame6) = ⟨FN_ERR_INVALID, none, 1⟩ ∧
    fn_clock_get_format (trConst frame6) 0 = ⟨FN_ERR_INVALID, none, 1⟩ ∧
    fn_clock_get_tz (trConst frame6) [] 0 = ⟨FN_ERR_INVALID, none, 1⟩ ∧
    fn_clock_get_timezone (trConst frame6) = ⟨FN_ERR_INVALID, none, 1⟩ ∧
    fn_parse_info_response frame6 = .ok ⟨none, 0, 0, 0⟩ :=
  have h := short_payload_policy frame6 ⟨FN_OK, 6, 0⟩ 512 0 [] (by decide) (by decide)
  ⟨h.1 (by decide), h.2.1 (by decide), h.2.2.1 (by decide), h.2.2.2.1 (by decide),
   h.2.2.2.2.1 (by decide), h.2.2.2.2.2.1 (by decide), h.2.2.2.2.2.2.1 (by decide),
   h.2.2.2.2.2.2.2 (by decide)⟩

/-! ## Claim C6: version-byte checking -/

/-- Claim C6 (amended): on a success frame with a sufficient payload, the
clock GetTime path returns the unsupported error whenever the leading
payload byte differs from the recognized clock version; the network Open,
Read and Info response parsers never inspect the version byte and succeed
regardless of its value. -/
theorem version_check_policy (resp : List Nat) (ph : ParsedHeader) (dmax : Nat)
    (hph : fn_parse_response_header resp = .ok ph) (hst : ph.status = FN_OK) :
    (12 ≤ ph.data_len → byteAt resp ph.data_offset ≠ FN_CLOCK_VERSION →
      fn_clock_get (trConst resp) = ⟨FN_ERR_UNSUPPORTED, none, 1⟩) ∧
    (6 ≤ ph.data_len → fn_parse_open_response resp =
      .ok ⟨le16 resp (ph.data_offset + 4), byteAt resp (ph.data_offset + 1)⟩) ∧
    (12 ≤ ph.data_len → ∃ r, fn_parse_read_response resp dmax = .ok r) ∧
    (∃ r, fn_parse_info_response resp = .ok r) := by
  refine ⟨?_, ?_, ?_, ?_⟩
  · intro hd hv
    rw [fn_clock_get]
    simp [trConst, setChecksum, fn_build_header, hph, hst, hv]
    exact fun h2 => absurd h2 (by omega)
  · intro hd
    rw [fn_parse_open_response]
    simp [hph, hst]
    omega
  · intro hd
    rw [fn_parse_read_response]
    simp only [hph]
    rw [if_neg (by simp [hst]), if_neg (by omega : ¬ph.data_len < 12)]
    exact ⟨_, rfl⟩
  · rw [fn_parse_info_response]
    by_cases hd : ph.data_len < 16
    · simp [hph, hst, hd]
    · simp [hph, hst, hd]

/-- Counterexample to C6 as stated: a success Open response whose version
byte is 85 (not the protocol version 1) still parses successfully; the
Open parser reports no unsupported error. -/
theorem version_check_policy_cex :
    frameOpen85.getD 6 0 = 85 ∧ (85 : Nat) ≠ FN_PROTOCOL_VERSION ∧
    fn_parse_open_response frameOpen85 = .ok ⟨7, 2⟩ ∧
    (Except.ok (⟨7, 2⟩ : OpenResp) : Except Nat OpenResp) ≠
      .error FN_ERR_UNSUPPORTED := by
  refine ⟨by decide, by decide, by decide, by decide⟩

/-- Witness for C6 at a concrete clock frame carrying version byte 2. -/
theorem version_check_policy_witness :
    fn_clock_get (trConst frameClockV2) = ⟨FN_ERR_UNSUPPORTED, none, 1⟩ ∧
    fn_parse_open_response frameClockV2 = .ok ⟨513, 0⟩ ∧
    (∃ r, fn_parse_read_response frameClockV2 512 = .ok r) ∧
    (∃ r, fn_parse_info_response frameClockV2 = .ok r) :=
  have h := version_check_policy frameClockV2 ⟨FN_OK, 6, 12⟩ 512 (by decide) (by decide)
  ⟨h.1 (by decide) (by decide), h.2.1 (by decide), h.2.2.1 (by decide), h.2.2.2⟩

/-! ## Claim C7: Open with a full session table -/

/-- Claim C7 (amended): on an initialized state whose session table has no
free slot, an Open whose response parses successfully does not yield the
no-handles error: fn_open returns success with the device-assigned handle,
leaves the session table unchanged, and the handle goes untracked. -/
theorem open_full_table (st : FnState) (tr : Transport) (method : Nat)
    (url : List Nat) (flags : Nat) (req resp : List Nat) (r : OpenResp)
    (hinit : st.initialized = true)
    (hfree : findFreeIdx st.sessions = none)
    (hbuild : fn_build_open_packet method (mapOpenFlags flags) url = some req)
    (htr : tr req = .ok resp)
    (hparse : fn_parse_open_response resp = .ok r) :
    fn_open st tr method url flags = ⟨FN_OK, some r.handle, st.sessions, 1⟩ := by
  have hurl : ¬FN_MAX_URL_LEN < url.length := by
    rw [fn_build_open_packet] at hbuild
    by_cases hc : FN_MAX_URL_LEN < url.length
    · rw [if_pos hc] at hbuild
      exact absurd hbuild (by simp)
    · exact hc
  rw [fn_open, hinit]
  rw [if_neg (by decide : ¬(true = false)), if_neg hurl]
  simp only [hbuild, htr, hparse, hfree]

/-- Counterexample to C7 as stated: with all four slots active and a device
that accepts the Open (handle 9), fn_open returns success, not the
no-handles error, and leaves the table unchanged. -/
theorem open_full_table_cex :
    findFreeIdx stFull.sessions = none ∧
    fn_open stFull (trConst frameOpenOk) 1 [] 0 =
      ⟨FN_OK, some 9, stFull.sessions, 1⟩ ∧
    FN_OK ≠ FN_ERR_NO_HANDLES := by
  refine ⟨by decide, by decide, by decide⟩

/-- Witness for C7 at the concrete full table and accepted Open response. -/
theorem open_full_table_witness :
    fn_open stFull (trConst frameOpenOk) 1 [] 0 =
      ⟨FN_OK, some 9, stFull.sessions, 1⟩ :=
  open_full_table stFull (trConst frameOpenOk) 1 [] 0
    ((fn_build_open_packet 1 (mapOpenFlags 0) []).getD []) frameOpenOk ⟨9, 1⟩
    (by decide) (by decide) (by decide) (by decide) (by decide)

/-! ## Claim C8: the write cursor only advances by acknowledged counts -/

theorem fn_write_cursor_cases (st : FnState) (tr : Transport) (handle offset : Nat)
    (data : List Nat) :
    (fn_write st tr handle offset data).sessions = st.sessions ∨
    ∃ slot resp w, findSessionIdx handle st.sessions = some slot ∧
      tr (fn_build_write_packet handle offset data) = .ok resp ∧
      writeAck resp st.resp_buf = some w ∧
      (fn_write st tr handle offset data).written = some w ∧
      (fn_write st tr handle offset data).sessions =
        st.sessions.set slot
          { st.sessions.getD slot default with
            write_offset :=
              ((st.sessions.getD slot default).write_offset + w) % 4294967296 } := by
  by_cases hinit : st.initialized = false
  · left; simp [fn_write, hinit]
  · by_cases hh : handle = FN_INVALID_HANDLE
    · left; simp [fn_write, hinit, hh]
    · cases hfind : findSessionIdx handle st.sessions with
      | none => left; simp [fn_write, hinit, hh, hfind]
      | some slot =>
        by_cases hoff : offset = (st.sessions.getD slot default).write_offset
        case neg =>
          left
          rw [List.getD_eq_getElem?_getD] at hoff
          simp [fn_write, hinit, hh, hfind, hoff]
        case pos =>
          subst hoff
          have hreq : ¬(fn_build_write_packet handle
              (st.sessions[slot]?.getD default).write_offset data).length = 0 := by
            simp [fn_build_write_packet, setChecksum, fn_build_header]
          cases htr : tr (fn_build_write_packet handle
              (st.sessions[slot]?.getD default).write_offset data) with
          | error e => left; simp [fn_write, hinit, hh, hfind, hreq, htr]
          | ok resp =>
            cases hpr : fn_parse_response_header resp with
            | error e =>
              left; simp [fn_write, hinit, hh, hfind, hreq, htr, hpr]
            | ok ph =>
              by_cases hsta : ph.status = FN_OK
              case neg =>
                left
                simp [fn_write, hinit, hh, hfind, hreq, htr, hpr, hsta]
              case pos =>
                by_cases hdl : 12 ≤ ph.data_len
                case neg =>
                  left
                  simp [fn_write, hinit, hh, hfind, hreq, htr, hpr, hsta, hdl]
                case pos =>
                  right
                  refine ⟨slot, resp,
                    le16 (resp ++ st.resp_buf.drop resp.length) (ph.data_offset + 10),
                    rfl, ?_, ?_, ?_, ?_⟩
                  · rw [List.getD_eq_getElem?_getD]
                    exact htr
                  · simp only [writeAck, hpr]
                    simp [hsta, hdl]
                  · simp [fn_write, hinit, hh, hfind, hreq, htr, hpr, hsta, hdl]
                  · simp [fn_write, hinit, hh, hfind, hreq, htr, hpr, hsta, hdl,
                      List.getD_eq_getElem?_getD]

theorem fn_open_preserves_active (st : FnState) (tr : Transport) (method : Nat)
    (url : List Nat) (flags i : Nat)
    (hact : (st.sessions.getD i default).active = true) :
    (fn_open st tr method url flags).sessions.getD i default =
      st.sessions.getD i default := by
  by_cases hinit : st.initialized = false
  · simp [fn_open, hinit]
  · by_cases hurl : FN_MAX_URL_LEN < url.length
    · simp [fn_open, hinit, hurl]
    · cases hbuild : fn_build_open_packet method (mapOpenFlags flags) url with
      | none => simp [fn_open, hinit, hurl, hbuild]
      | some req =>
        cases htr : tr req with
        | error e => simp [fn_open, hinit, hurl, hbuild, htr]
        | ok resp =>
          cases hparse : fn_parse_open_response resp with
          | error e => simp [fn_open, hinit, hurl, hbuild, htr, hparse]
          | ok r =>
            cases hfree : findFreeIdx st.sessions with
            | none => simp [fn_open, hinit, hurl, hbuild, htr, hparse, hfree]
            | some slot =>
              have hslot := findFreeIdx_some hfree
              have hne : slot ≠ i := by
                intro he
                rw [he] at hslot
                rw [hslot.2] at hact
                exact absurd hact (by simp)
              have hset := getD_set st.sessions slot i
                ⟨true, url.take 6 == tcpSchemeBytes, r.flags / 2 % 2 = 1, r.handle, 0, 0⟩
              rw [if_neg (by simp [hne])] at hset
              simp only [fn_open, hinit, hurl, hbuild, htr, hparse, hfree]
              simp only [if_neg (by decide : ¬(true = false))]
              exact hset

theorem fn_read_preserves_write (st : FnState) (tr : Transport)
    (handle offset max_len i : Nat) :
    ((fn_read st tr handle offset max_len).sessions.getD i default).write_offset =
      (st.sessions.getD i default).write_offset := by
  by_cases hinit : st.initialized = false
  · simp [fn_read, hinit]
  · by_cases hh : handle = FN_INVALID_HANDLE
    · simp [fn_read, hinit, hh]
    · cases hfind : findSessionIdx handle st.sessions with
      | none => simp [fn_read, hinit, hh, hfind]
      | some slot =>
        have hreq : ¬(fn_build_read_packet handle offset max_len).length = 0 := by
          simp [fn_build_read_packet, setChecksum, fn_build_header]
        cases htr : tr (fn_build_read_packet handle offset max_len) with
        | error e => simp [fn_read, hinit, hh, hfind, hreq, htr]
        | ok resp =>
          cases hparse : fn_parse_read_response resp max_len with
          | error e => simp [fn_read, hinit, hh, hfind, hreq, htr, hparse]
          | ok r =>
            by_cases hc :
              (st.sessions[slot]?.getD default).is_tcp = true ∧ 0 < r.data_len
            case pos =>
              by_cases hs1 : slot = i
              · subst hs1
                by_cases hs2 : slot < st.sessions.length
                · have hset := getD_set st.sessions slot slot
                    { st.sessions.getD slot default with
                      read_offset :=
                        ((st.sessions.getD slot default).read_offset + r.data_len) %
                          4294967296 }
                  rw [if_pos ⟨rfl, hs2⟩] at hset
                  simp only [List.getD_eq_getElem?_getD] at hset
                  rw [hc.1] at hset
                  simp [fn_read, hinit, hh, hfind, hreq, htr, hparse, hc.1, hc.2, hset]
                · have hset := getD_set st.sessions slot slot
                    { st.sessions.getD slot default with
                      read_offset :=
                        ((st.sessions.getD slot default).read_offset + r.data_len) %
                          4294967296 }
                  rw [if_neg (fun hand => hs2 hand.2)] at hset
                  simp only [List.getD_eq_getElem?_getD] at hset
                  rw [hc.1] at hset
                  simp [fn_read, hinit, hh, hfind, hreq, htr, hparse, hc.1, hc.2, hset]
              · have hset := getD_set st.sessions slot i
                  { st.sessions.getD slot default with
                    read_offset :=
                      ((st.sessions.getD slot default).read_offset + r.data_len) %
                        4294967296 }
                rw [if_neg (fun hand => hs1 hand.1)] at hset
                simp only [List.getD_eq_getElem?_getD] at hset
                rw [hc.1] at hset
                simp [fn_read, hinit, hh, hfind, hreq, htr, hparse, hc.1, hc.2, hset]
            case neg =>
              by_cases h1 : (st.sessions[slot]?.getD default).is_tcp = true
              · have h2 : ¬0 < r.data_len := fun h2 => hc ⟨h1, h2⟩
                simp [fn_read, hinit, hh, hfind, hreq, htr, hparse, h1, h2]
              · simp [fn_read, hinit, hh, hfind, hreq, htr, hparse, h1]

theorem fn_info_preserves_sessions (st : FnState) (tr : Transport) (handle : Nat) :
    (fn_info st tr handle).sessions = st.sessions := by
  by_cases hinit : st.initialized = false
  · simp [fn_info, hinit]
  · by_cases hh : handle = FN_INVALID_HANDLE
    · simp [fn_info, hinit, hh]
    · cases hfind : findSessionIdx handle st.sessions with
      | none => simp [fn_info, hinit, hh, hfind]
      | some slot =>
        have hreq : ¬(fn_build_info_packet handle).length = 0 := by
          simp [fn_build_info_packet, setChecksum, fn_build_header]
        cases htr : tr (fn_build_info_packet handle) with
        | error e => simp [fn_info, hinit, hh, hfind, hreq, htr]
        | ok resp =>
          cases hparse : fn_parse_info_response resp with
          | error e => simp [fn_info, hinit, hh, hfind, hreq, htr, hparse]
          | ok r => simp [fn_info, hinit, hh, hfind, hreq, htr, hparse]

theorem freeHandle_preserves_write (l : List FnSession) (h i : Nat) :
    ((freeHandle l h).getD i default).write_offset =
      (l.getD i default).write_offset := by
  rw [freeHandle]
  by_cases hh : h = FN_INVALID_HANDLE
  · rw [if_pos hh]
  · rw [if_neg hh]
    cases hfind : findSessionIdx h l with
    | none => rfl
    | some j =>
      have hset := getD_set l j i { l.getD j default with active := false }
      by_cases hji : j = i ∧ j < l.length
      · rw [if_pos hji] at hset
        rw [hset]
        rw [hji.1]
      · rw [if_neg hji] at hset
        rw [hset]

theorem fn_close_preserves_write (st : FnState) (tr : Transport) (handle i : Nat) :
    ((fn_close st tr handle).sessions.getD i default).write_offset =
      (st.sessions.getD i default).write_offset := by
  by_cases hinit : st.initialized = false
  · simp [fn_close, hinit]
  · by_cases hh : handle = FN_INVALID_HANDLE
    · simp [fn_close, hinit, hh]
    · have hreq : ¬(fn_build_close_packet handle).length = 0 := by
        simp [fn_build_close_packet, setChecksum, fn_build_header]
      have hfree := freeHandle_preserves_write st.sessions handle i
      cases htr : tr (fn_build_close_packet handle) with
      | error e =>
        simp only [fn_close, hinit, hh, hreq, htr,
          List.getD_eq_getElem?_getD] at hfree ⊢
        simp [hfree]
      | ok resp =>
        simp only [fn_close, hinit, hh, hreq, htr,
          List.getD_eq_getElem?_getD] at hfree ⊢
        simp [hfree]

theorem writeAck_in_range (resp buf : List Nat) (ph : ParsedHeader)
    (hpr : fn_parse_response_header resp = .ok ph) (hsta : ph.status = FN_OK)
    (hdl : 12 ≤ ph.data_len) (hin : ph.data_offset + 12 ≤ resp.length) :
    writeAck resp buf = some (le16 resp (ph.data_offset + 10)) := by
  simp only [writeAck, hpr]
  rw [if_pos ⟨hsta, hdl⟩]
  unfold le16 byteAt
  rw [List.getD_append _ _ _ _ (by omega), List.getD_append _ _ _ _ (by omega)]

/-- Claim C8 (amended): across all five operations, the write cursor of a
session only ever changes in fn_write, and there only by the 16-bit
acknowledgement value read from the static response buffer at payload
offset 10 (a uint32 addition); whenever the acknowledged fixed fields lie
within the delivered response (data_offset + 12 at most resp_len) that
value is exactly the bytes-accepted count the device reported.  fn_open
leaves every already-active slot untouched, fn_read and fn_close never
change a write cursor, and fn_info never changes the table; no operation
advances the cursor by the requested length. -/
theorem write_cursor_discipline :
    (∀ (st : FnState) (tr : Transport) (handle offset : Nat) (data : List Nat),
      (fn_write st tr handle offset data).sessions = st.sessions ∨
      ∃ slot resp w, findSessionIdx handle st.sessions = some slot ∧
        tr (fn_build_write_packet handle offset data) = .ok resp ∧
        writeAck resp st.resp_buf = some w ∧
        (fn_write st tr handle offset data).written = some w ∧
        (fn_write st tr handle offset data).sessions =
          st.sessions.set slot
            { st.sessions.getD slot default with
              write_offset :=
                ((st.sessions.getD slot default).write_offset + w) % 4294967296 }) ∧
    (∀ (resp buf : List Nat) (ph : ParsedHeader),
      fn_parse_response_header resp = .ok ph → ph.status = FN_OK →
      12 ≤ ph.data_len → ph.data_offset + 12 ≤ resp.length →
      writeAck resp buf = some (le16 resp (ph.data_offset + 10))) ∧
    (∀ (st : FnState) (tr : Transport) (method : Nat) (url : List Nat) (flags i : Nat),
      (st.sessions.getD i default).active = true →
      (fn_open st tr method url flags).sessions.getD i default =
        st.sessions.getD i default) ∧
    (∀ (st : FnState) (tr : Transport) (handle offset max_len i : Nat),
      ((fn_read st tr handle offset max_len).sessions.getD i default).write_offset =
        (st.sessions.getD i default).write_offset) ∧
    (∀ (st : FnState) (tr : Transport) (handle : Nat),
      (fn_info st tr handle).sessions = st.sessions) ∧
    (∀ (st : FnState) (tr : Transport) (handle i : Nat),
      ((fn_close st tr handle).sessions.getD i default).write_offset =
        (st.sessions.getD i default).write_offset) :=
  ⟨fn_write_cursor_cases, writeAck_in_range, fn_open_preserves_active,
   fn_read_preserves_write, fn_info_preserves_sessions, fn_close_preserves_write⟩

set_option maxRecDepth 4000 in
/-- Counterexample to C8 as stated: the checksum-valid 7-byte descriptor
frame wFrame parses with success status, payload offset 10 and a wrapped
payload length of 65533, so fn_write reads the acknowledgement bytes from
indices 20 and 21 - beyond the 7 delivered bytes, stale cells of the
static buffer (here 9,9) - and advances the write cursor by 2313, a value
encoded by no pair of bytes of the device response. -/
theorem write_cursor_discipline_cex :
    fn_parse_response_header wFrame = .ok ⟨FN_OK, 10, 65533⟩ ∧
    wFrame.length = 7 ∧
    wFrame.length < 10 + 12 ∧
    (fn_write stW (trConst wFrame) 1 0 []).written = some 2313 ∧
    ((fn_write stW (trConst wFrame) 1 0 []).sessions.getD 0 default).write_offset =
      2313 ∧
    (∀ i < wFrame.length, ∀ j < wFrame.length,
      wFrame.getD i 0 + 256 * wFrame.getD j 0 ≠ 2313) := by
  refine ⟨by decide, by decide, by decide, by decide, by decide, by decide⟩

/-- Witness for C8: the fn_open part at an active slot of a concrete
table, and the in-range acknowledgement part at a well-formed 24-byte
Write response over a stale buffer, where the value read is the count the
device reported (5). -/
theorem write_cursor_discipline_witness :
    ((fn_open st1 trFail 1 [] 0).sessions.getD 0 default =
      st1.sessions.getD 0 default) ∧
    writeAck wAckFrame (List.replicate 1024 9) = some (le16 wAckFrame (6 + 10)) :=
  ⟨write_cursor_discipline.2.2.1 st1 trFail 1 [] 0 0 (by decide),
   write_cursor_discipline.2.1 wAckFrame (List.replicate 1024 9) ⟨FN_OK, 6, 18⟩
     (by decide) (by decide) (by decide) (by decide)⟩

/-! ## Claim C9: bounds of the Read-response copy -/

/-- Claim C9 (amended): the fn_parse_read_response copy window starts at
data_offset + 12 and spans min(declared length, caller capacity) bytes;
whenever the parsed payload ends at the response end and the declared data
length does not exceed the payload bytes actually present beyond the
12-byte fixed fields, every index the copy reads is below resp_len.  The
returned data is exactly that window. -/
theorem read_copy_bounds (resp : List Nat) (dmax : Nat) (ph : ParsedHeader)
    (r : ReadResp)
    (hph : fn_parse_response_header resp = .ok ph)
    (hr : fn_parse_read_response resp dmax = .ok r)
    (hsum : ph.data_offset + ph.data_len = resp.length)
    (hdecl : le16 resp (ph.data_offset + 10) ≤ ph.data_len - 12) :
    ph.data_offset + 12 + min (le16 resp (ph.data_offset + 10)) dmax ≤ resp.length ∧
    r.data = (List.range (min (le16 resp (ph.data_offset + 10)) dmax)).map
      (fun i => byteAt resp (ph.data_offset + 12 + i)) := by
  rw [fn_parse_read_response] at hr
  simp only [hph] at hr
  by_cases hsta : ph.status ≠ FN_OK
  · rw [if_pos hsta] at hr
    exact absurd hr (by simp)
  · rw [if_neg hsta] at hr
    by_cases hdl : ph.data_len < 12
    · rw [if_pos hdl] at hr
      exact absurd hr (by simp)
    · rw [if_neg hdl] at hr
      simp only [Except.ok.injEq] at hr
      constructor
      · omega
      · rw [← hr]

/-- Counterexample to C9 as stated: a valid Read response declaring 100
data bytes while carrying none parses successfully, and the copy window
min(declared, capacity) = 100 bytes from offset 18 extends far beyond the
18 bytes of the response, so the copy does read past resp_len. -/
theorem read_copy_bounds_cex :
    fn_parse_response_header frameRead100 = .ok ⟨FN_OK, 6, 12⟩ ∧
    (fn_parse_read_response frameRead100 512).isOk = true ∧
    ¬(6 + 12 + min (le16 frameRead100 (6 + 10)) 512 ≤ frameRead100.length) := by
  refine ⟨by decide, by decide, by decide⟩

/-- Witness for C9 at a concrete well-formed Read response carrying its
two declared data bytes. -/
theorem read_copy_bounds_witness :
    6 + 12 + min (le16 frameRead2 (6 + 10)) 512 ≤ frameRead2.length ∧
    [65, 66] = (List.range (min (le16 frameRead2 (6 + 10)) 512)).map
      (fun i => byteAt frameRead2 (6 + 12 + i)) :=
  read_copy_bounds frameRead2 512 ⟨FN_OK, 6, 14⟩ ⟨1, 0, 0, [65, 66], 2⟩
    (by decide) (by decide) (by decide) (by decide)

/-! ## Claim C10: fn_close removes the handle from the table -/

/-- Claim C10 (amended): on an initialized state in which at most one
active slot holds handle h (the documented table invariant), after
fn_close(h) returns - whatever the transport result - no active entry
carries handle h, and every slot that did not match stays unchanged. -/
theorem close_frees_handle (st : FnState) (tr : Transport) (h : Nat)
    (hinit : st.initialized = true) (hh : h ≠ FN_INVALID_HANDLE)
    (huniq : ∀ i j, (st.sessions.getD i default).active = true →
      (st.sessions.getD i default).handle = h →
      (st.sessions.getD j default).active = true →
      (st.sessions.getD j default).handle = h → i = j) :
    (∀ k, ((fn_close st tr h).sessions.getD k default).active = true →
      ((fn_close st tr h).sessions.getD k default).handle ≠ h) ∧
    (∀ k, ¬((st.sessions.getD k default).active = true ∧
        (st.sessions.getD k default).handle = h) →
      (fn_close st tr h).sessions.getD k default = st.sessions.getD k default) := by
  have hreq : ¬(fn_build_close_packet h).length = 0 := by
    simp [fn_build_close_packet, setChecksum, fn_build_header]
  have hsess : (fn_close st tr h).sessions = freeHandle st.sessions h := by
    cases htr : tr (fn_build_close_packet h) with
    | error e => simp [fn_close, hinit, hh, hreq, htr]
    | ok resp2 => simp [fn_close, hinit, hh, hreq, htr]
  rw [hsess, freeHandle, if_neg hh]
  cases hfind : findSessionIdx h st.sessions with
  | none =>
    have hnone := findSessionIdx_none hfind
    exact ⟨fun k hact hhd => hnone k ⟨hact, hhd⟩, fun k _ => rfl⟩
  | some j =>
    have hj := findSessionIdx_some hfind
    constructor
    · intro k hact
      have hset := getD_set st.sessions j k
        { st.sessions.getD j default with active := false }
      by_cases hjk : j = k ∧ j < st.sessions.length
      · rw [if_pos hjk] at hset
        rw [hset] at hact
        exact absurd hact (by simp)
      · rw [if_neg hjk] at hset
        rw [hset] at hact ⊢
        intro hhd
        exact hjk ⟨(huniq k j hact hhd hj.2.1 hj.2.2).symm, hj.1⟩
    · intro k hnm
      have hset := getD_set st.sessions j k
        { st.sessions.getD j default with active := false }
      by_cases hjk : j = k ∧ j < st.sessions.length
      · exact absurd (hjk.1 ▸ ⟨hj.2.1, hj.2.2⟩) hnm
      · rw [if_neg hjk] at hset
        exact hset

/-- Counterexample to C10 as stated: in a state holding handle 5 in two
active slots, fn_close(5) frees only the first match, so an active entry
with handle 5 remains. -/
theorem close_frees_handle_cex :
    stDup.initialized = true ∧
    ((fn_close stDup trFail 5).sessions.getD 1 default).active = true ∧
    ((fn_close stDup trFail 5).sessions.getD 1 default).handle = 5 := by
  refine ⟨by decide, by decide, by decide⟩

/-- Witness for C10 on a table holding handle 1 in exactly one slot. -/
theorem close_frees_handle_witness :
    (∀ k, ((fn_close st1 trFail 1).sessions.getD k default).active = true →
      ((fn_close st1 trFail 1).sessions.getD k default).handle ≠ 1) ∧
    (∀ k, ¬((st1.sessions.getD k default).active = true ∧
        (st1.sessions.getD k default).handle = 1) →
      (fn_close st1 trFail 1).sessions.getD k default =
        st1.sessions.getD k default) :=
  close_frees_handle st1 trFail 1 (by decide) (by decide) (by
    have key : ∀ k, (st1.sessions.getD k default).active = true → k = 0 := by
      intro k hk
      by_cases h4 : 4 ≤ k
      · rw [List.getD_eq_default _ _
          ((by decide : st1.sessions.length ≤ 4).trans h4)] at hk
        exact absurd hk (by decide)
      · rcases k with _ | k1
        · rfl
        rcases k1 with _ | k2
        · exact absurd hk (by decide)
        rcases k2 with _ | k3
        · exact absurd hk (by decide)
        rcases k3 with _ | k4
        · exact absurd hk (by decide)
        · omega
    intro i j hi _ hj _
    rw [key i hi, key j hj])

end FujiNet
